import Mathlib

/-!
Shallow embedding of the `Blob` repository (`src/Blob.hpp`, `src/Blob.cpp`):
the classes `BlobView` (read-only view), `BlobSpan` (read-write span) and
`Blob` (owning buffer).  Machine addresses and byte counts are natural
numbers; the null pointer is `0`; `size_t` arithmetic is taken modulo `2^64`
where the source computes with unsigned 64-bit integers.  Memory content, the
allocator and `free` are modelled explicitly where a claim depends on them.
-/

/-- The `size_t` modulus `2^64`, written as a literal. -/
def U64 : Nat := 18446744073709551616

/-- Unsigned 64-bit addition, as computed by `size_t` `+` in the source. -/
def wadd (a b : Nat) : Nat := (a + b) % U64

/-- Unsigned 64-bit subtraction, as computed by `size_t` `-` in the source. -/
def wsub (a b : Nat) : Nat := (a + (U64 - b % U64)) % U64

/-- Unsigned 64-bit multiplication, as computed by `size_t` `*` in the source. -/
def wmul (a b : Nat) : Nat := (a * b) % U64

/-- Modelled from the spec: the `ASSERT` facility of `Assert.hpp` (a file of
this repository that is not under `src/`): the assertion/bounds-check facility
invoked on every precondition, which on violation aborts the process (fatal,
unrecoverable) rather than returning a value.  An operation whose `ASSERT`
condition is false is modelled as returning `none`. -/
def ASSERT (cond : Prop) [Decidable cond] (k : Option α) : Option α :=
  if cond then k else none

/-- `class BlobView` (`src/Blob.hpp:40`): a non-owning read-only
(pointer, size) pair; `pointer_` is the address (`0` = null), `size_` is in
bytes. -/
structure BlobView where
  pointer_ : Nat
  size_ : Nat
deriving DecidableEq, Repr

/-- `class BlobSpan` (`src/Blob.hpp:104`): a non-owning read-write
(pointer, size) pair. -/
structure BlobSpan where
  pointer_ : Nat
  size_ : Nat
deriving DecidableEq, Repr

/-- `BlobView::BlobView()` (`src/Blob.hpp:261`). -/
def BlobView.defaultCtor : BlobView := ⟨0, 0⟩

/-- `BlobView::BlobView(const void* data, size_t bytes)` (`src/Blob.hpp:267`). -/
def BlobView.ctor (data bytes : Nat) : BlobView := ⟨data, bytes⟩

/-- `BlobView::Empty()` (`src/Blob.hpp:296`): `pointer_ == nullptr || size_ == 0`. -/
def BlobView.Empty (v : BlobView) : Bool := v.pointer_ == 0 || v.size_ == 0

/-- `BlobView::Size()` (`src/Blob.hpp:301`). -/
def BlobView.Size (v : BlobView) : Nat := v.size_

/-- `BlobView::Data()` (`src/Blob.hpp:306`). -/
def BlobView.Data (v : BlobView) : Nat := v.pointer_

/-- `BlobView::Data(size_t offset)` (`src/Blob.hpp:311`): asserts
`offset <= size_`, returns `pointer_ + offset`. -/
def BlobView.DataAt (v : BlobView) (offset : Nat) : Option Nat :=
  ASSERT (offset ≤ v.size_) <| some (v.pointer_ + offset)

/-- `BlobView::Pointer<T>(size_t offset)` (`src/Blob.hpp:317`): asserts
`offset <= size_` and returns `Data(offset)`. -/
def BlobView.PointerAt (v : BlobView) (offset : Nat) : Option Nat :=
  ASSERT (offset ≤ v.size_) <| v.DataAt offset

/-- `BlobView::SubView(size_t offset)` (`src/Blob.hpp:330`): asserts
`offset <= size_`, returns `BlobView(Data(offset), size_ - offset)`. -/
def BlobView.SubView (v : BlobView) (offset : Nat) : Option BlobView :=
  ASSERT (offset ≤ v.size_) <|
    (v.DataAt offset).map fun p => ⟨p, wsub v.size_ offset⟩

/-- `BlobView::SubView(size_t offset, size_t bytes)` (`src/Blob.hpp:336`):
asserts `offset + bytes <= size_` (unsigned sum), returns
`BlobView(Data(offset), bytes)`. -/
def BlobView.SubViewSized (v : BlobView) (offset bytes : Nat) : Option BlobView :=
  ASSERT (wadd offset bytes ≤ v.size_) <|
    (v.DataAt offset).map fun p => ⟨p, bytes⟩

/-- `BlobView::Slice(size_t begin, size_t end)` (`src/Blob.hpp:342`): asserts
`begin <= size_` and `end <= size_` — there is no `begin <= end` check —
and returns `BlobView(Data(begin), end - begin)` with the unsigned
difference. -/
def BlobView.Slice (v : BlobView) (b e : Nat) : Option BlobView :=
  ASSERT (b ≤ v.size_) <| ASSERT (e ≤ v.size_) <|
    (v.DataAt b).map fun p => ⟨p, wsub e b⟩

/-- `BlobView::ArrayView<T>(size_t offset, size_t count)` (`src/Blob.hpp:349`):
asserts `offset + count * sizeof(T) <= size_` (unsigned arithmetic) and
returns `std::span(Pointer<const T>(offset), count)`, modelled as the
(data pointer, element count) pair; `sizeofT` stands for `sizeof(T)`. -/
def BlobView.ArrayView (v : BlobView) (sizeofT offset count : Nat) : Option (Nat × Nat) :=
  ASSERT (wadd offset (wmul count sizeofT) ≤ v.size_) <|
    (v.PointerAt offset).map fun p => (p, count)

/-- `BlobSpan::BlobSpan()` (`src/Blob.hpp:358`). -/
def BlobSpan.defaultCtor : BlobSpan := ⟨0, 0⟩

/-- `BlobSpan::BlobSpan(void* data, size_t bytes)` (`src/Blob.hpp:364`). -/
def BlobSpan.ctor (data bytes : Nat) : BlobSpan := ⟨data, bytes⟩

/-- `BlobSpan::Empty()` (`src/Blob.hpp:388`). -/
def BlobSpan.Empty (s : BlobSpan) : Bool := s.pointer_ == 0 || s.size_ == 0

/-- `BlobSpan::Size()` (`src/Blob.hpp:393`). -/
def BlobSpan.Size (s : BlobSpan) : Nat := s.size_

/-- `BlobSpan::Data()` (`src/Blob.hpp:398`). -/
def BlobSpan.Data (s : BlobSpan) : Nat := s.pointer_

/-- `BlobSpan::Data(size_t offset)` (`src/Blob.hpp:403`): asserts
`offset <= size_`, returns `pointer_ + offset`. -/
def BlobSpan.DataAt (s : BlobSpan) (offset : Nat) : Option Nat :=
  ASSERT (offset ≤ s.size_) <| some (s.pointer_ + offset)

/-- `BlobSpan::Pointer<T>(size_t offset)` (`src/Blob.hpp:409`). -/
def BlobSpan.PointerAt (s : BlobSpan) (offset : Nat) : Option Nat :=
  ASSERT (offset ≤ s.size_) <| s.DataAt offset

/-- `BlobSpan::SubSpan(size_t offset)` (`src/Blob.hpp:422`). -/
def BlobSpan.SubSpan (s : BlobSpan) (offset : Nat) : Option BlobSpan :=
  ASSERT (offset ≤ s.size_) <|
    (s.DataAt offset).map fun p => ⟨p, wsub s.size_ offset⟩

/-- `BlobSpan::SubSpan(size_t offset, size_t bytes)` (`src/Blob.hpp:428`). -/
def BlobSpan.SubSpanSized (s : BlobSpan) (offset bytes : Nat) : Option BlobSpan :=
  ASSERT (wadd offset bytes ≤ s.size_) <|
    (s.DataAt offset).map fun p => ⟨p, bytes⟩

/-- `BlobSpan::Slice(size_t begin, size_t end)` (`src/Blob.hpp:434`): asserts
`begin <= size_` and `end <= size_` — no `begin <= end` check — and returns
`BlobSpan(Data(begin), end - begin)` with the unsigned difference. -/
def BlobSpan.Slice (s : BlobSpan) (b e : Nat) : Option BlobSpan :=
  ASSERT (b ≤ s.size_) <| ASSERT (e ≤ s.size_) <|
    (s.DataAt b).map fun p => ⟨p, wsub e b⟩

/-- `BlobSpan::ArraySpan<T>(size_t offset, size_t count)` (`src/Blob.hpp:441`). -/
def BlobSpan.ArraySpan (s : BlobSpan) (sizeofT offset count : Nat) : Option (Nat × Nat) :=
  ASSERT (wadd offset (wmul count sizeofT) ≤ s.size_) <|
    (s.PointerAt offset).map fun p => (p, count)

/-- `BlobView::BlobView(const BlobSpan& other)` (`src/Blob.hpp:291`): the
implicit span-to-view conversion, `BlobView(other.Data(), other.Size())`. -/
def BlobView.ofSpan (other : BlobSpan) : BlobView := ⟨other.Data, other.Size⟩

/-- The two possible directions of cross-type conversion between `BlobSpan`
and `BlobView`. -/
inductive ConvDir where
  | spanToView
  | viewToSpan
deriving DecidableEq, Repr

/-- The cross-type converting constructors and assignments that `src/Blob.hpp`
declares usable: `BlobView::BlobView(const BlobSpan&)` is declared (line 56)
and defined (line 291), while `BlobSpan::BlobSpan(const BlobView&)` and
`BlobSpan& operator=(const BlobView&)` are `= delete` (lines 120 and 125), so
the view-to-span direction is rejected at type-check time. -/
def declaredConversion : ConvDir → Bool
  | .spanToView => true
  | .viewToSpan => false

/-- The heap model for `std::malloc`/`std::free`/`std::memcpy`: `next` is the
address the next allocation receives (every allocation handed out so far lies
below `next`), `mem` gives the byte stored at each address. -/
structure Heap where
  next : Nat
  mem : Nat → Nat

/-- A well-formed heap state: the null address `0` is never handed out by the
allocator. -/
def Heap.WF (h : Heap) : Prop := 0 < h.next

/-- `std::malloc(size)` in the model: returns the fresh address `h.next` and
advances the heap past the new allocation.  The model allocator always
succeeds; allocation failure is not checked by the source (spec section 9). -/
def Heap.malloc (h : Heap) (size : Nat) : Nat × Heap :=
  (h.next, { h with next := h.next + size })

/-- `std::free(p)`: the list of addresses freed — empty for the null pointer,
on which `free` is a no-op. -/
def freeAddr (p : Nat) : List Nat := if p = 0 then [] else [p]

/-- `std::memcpy(dst, src, n)` acting on the byte memory. -/
def memcpy (dst src n : Nat) (mem : Nat → Nat) : Nat → Nat :=
  fun a => if dst ≤ a ∧ a < dst + n then mem (src + (a - dst)) else mem a

/-- `std::memset(dst, 0, n)` acting on the byte memory. -/
def memset0 (dst n : Nat) (mem : Nat → Nat) : Nat → Nat :=
  fun a => if dst ≤ a ∧ a < dst + n then 0 else mem a

/-- `class Blob` (`src/Blob.hpp:170`): the exclusive owner of an allocation;
`data_ = 0` models the null pointer, `size_` is in bytes. -/
structure Blob where
  data_ : Nat
  size_ : Nat
deriving DecidableEq, Repr

/-- `Blob::Blob()` (`src/Blob.hpp:450`). -/
def Blob.defaultCtor : Blob := ⟨0, 0⟩

/-- `Blob::Blob(size_t size_in_bytes)` (`src/Blob.cpp:25`): asserts
`size_in_bytes != 0`, then allocates with `std::malloc`. -/
def Blob.create (size_in_bytes : Nat) (h : Heap) : Option (Blob × Heap) :=
  ASSERT (size_in_bytes ≠ 0) <|
    some (⟨(h.malloc size_in_bytes).1, size_in_bytes⟩, (h.malloc size_in_bytes).2)

/-- `Blob::Blob(void* data, size_t size)` (`src/Blob.hpp:456`): adopts an
existing allocation; asserts `data != nullptr` and `size != 0`. -/
def Blob.adopt (data size : Nat) : Option Blob :=
  ASSERT (data ≠ 0) <| ASSERT (size ≠ 0) <| some ⟨data, size⟩

/-- `Blob::Blob(std::unique_ptr<T[]>&& buffer, size_t elements)`
(`src/Blob.hpp:464`): delegates to the adopting constructor with
`buffer.release()` and size `sizeof(T) * elements` (unsigned product);
`sizeofT` stands for `sizeof(T)`. -/
def Blob.adoptTyped (sizeofT buffer elements : Nat) : Option Blob :=
  Blob.adopt buffer (wmul sizeofT elements)

/-- `Blob::Blob(Blob&& other)` (`src/Blob.cpp:33`): steals the fields via
`std::exchange`; returns (constructed blob, moved-from source). -/
def Blob.moveCtor (other : Blob) : Blob × Blob :=
  (⟨other.data_, other.size_⟩, ⟨0, 0⟩)

/-- `Blob::operator=(Blob&& other)` (`src/Blob.cpp:44`): `Reset()` then steal;
returns (assigned-to blob, moved-from source, addresses freed). -/
def Blob.moveAssign (self other : Blob) : Blob × Blob × List Nat :=
  (⟨other.data_, other.size_⟩, ⟨0, 0⟩, freeAddr self.data_)

/-- `Blob::Reset()` (`src/Blob.cpp:52`): `std::free(std::exchange(data_,
nullptr)); size_ = 0;` — returns (new state, addresses freed).  The
destructor (`src/Blob.cpp:39`) is exactly a call to `Reset()`. -/
def Blob.Reset (b : Blob) : Blob × List Nat :=
  (⟨0, 0⟩, freeAddr b.data_)

/-- `Blob::Release()` (`src/Blob.hpp:480`): returns the held
(address, size) pair and the emptied blob; nothing is freed. -/
def Blob.Release (b : Blob) : (Nat × Nat) × Blob :=
  ((b.data_, b.size_), ⟨0, 0⟩)

/-- `Blob::Copy()` (`src/Blob.cpp:58`): when `data_ != nullptr && size_ > 0`,
allocates `size_` bytes and `memcpy`s the content; otherwise returns a
default-constructed blob, leaving the heap untouched. -/
def Blob.Copy (b : Blob) (h : Heap) : Blob × Heap :=
  if b.data_ ≠ 0 ∧ 0 < b.size_ then
    (⟨(h.malloc b.size_).1, b.size_⟩,
      { (h.malloc b.size_).2 with
        mem := memcpy (h.malloc b.size_).1 b.data_ b.size_ ((h.malloc b.size_).2).mem })
  else (⟨0, 0⟩, h)

/-- `Blob::Clear()` (`src/Blob.cpp:69`): zero-fills the owned bytes when
`data_ != nullptr && size_ > 0`; the blob's own fields never change. -/
def Blob.Clear (b : Blob) (h : Heap) : Blob × Heap :=
  if b.data_ ≠ 0 ∧ 0 < b.size_ then (b, { h with mem := memset0 b.data_ b.size_ h.mem })
  else (b, h)

/-- `Blob::Empty()` (`src/Blob.hpp:470`): `data_ == nullptr || size_ == 0`. -/
def Blob.Empty (b : Blob) : Bool := b.data_ == 0 || b.size_ == 0

/-- `Blob::Size()` (`src/Blob.hpp:475`). -/
def Blob.Size (b : Blob) : Nat := b.size_

/-- `Blob::Data()` (`src/Blob.hpp:488`). -/
def Blob.Data (b : Blob) : Nat := b.data_

/-- `Blob::Data(size_t offset)` (`src/Blob.hpp:505`): asserts
`data_ != nullptr` and `offset <= size_`, returns `data_ + offset`. -/
def Blob.DataAt (b : Blob) (offset : Nat) : Option Nat :=
  ASSERT (b.data_ ≠ 0) <| ASSERT (offset ≤ b.size_) <| some (b.data_ + offset)

/-- `Blob::Pointer<T>(size_t offset)` (`src/Blob.hpp:512`): asserts
`offset <= size_`, then calls `Data(offset)`. -/
def Blob.PointerAt (b : Blob) (offset : Nat) : Option Nat :=
  ASSERT (offset ≤ b.size_) <| b.DataAt offset

/-- `Blob::Span(size_t offset)` (`src/Blob.hpp:538`):
`BlobSpan(Data(offset), size_ - offset)` (unsigned difference). -/
def Blob.Span (b : Blob) (offset : Nat) : Option BlobSpan :=
  (b.DataAt offset).map fun p => ⟨p, wsub b.size_ offset⟩

/-- `Blob::Span(size_t offset, size_t size)` (`src/Blob.hpp:543`): asserts
`offset + size <= size_` (unsigned sum), returns `BlobSpan(Data(offset), size)`. -/
def Blob.SpanSized (b : Blob) (offset size : Nat) : Option BlobSpan :=
  ASSERT (wadd offset size ≤ b.size_) <|
    (b.DataAt offset).map fun p => ⟨p, size⟩

/-- `Blob::View(size_t offset)` (`src/Blob.hpp:549`):
`BlobView(Data(offset), size_ - offset)` (unsigned difference). -/
def Blob.View (b : Blob) (offset : Nat) : Option BlobView :=
  (b.DataAt offset).map fun p => ⟨p, wsub b.size_ offset⟩

/-- `Blob::View(size_t offset, size_t size)` (`src/Blob.hpp:554`): asserts
`offset + size <= size_`, returns `BlobView(Data(offset), size)`. -/
def Blob.ViewSized (b : Blob) (offset size : Nat) : Option BlobView :=
  ASSERT (wadd offset size ≤ b.size_) <|
    (b.DataAt offset).map fun p => ⟨p, size⟩

/-- `Blob::ArrayView<T>(size_t offset, size_t count)` (`src/Blob.hpp:560`):
asserts `offset + count * sizeof(T) <= size_` (unsigned arithmetic), returns
`std::span(Pointer<const T>(offset), count)` modelled as a
(data pointer, element count) pair. -/
def Blob.ArrayView (b : Blob) (sizeofT offset count : Nat) : Option (Nat × Nat) :=
  ASSERT (wadd offset (wmul count sizeofT) ≤ b.size_) <|
    (b.PointerAt offset).map fun p => (p, count)

/-- `Blob::ArraySpan<T>(size_t offset, size_t count)` (`src/Blob.hpp:567`). -/
def Blob.ArraySpan (b : Blob) (sizeofT offset count : Nat) : Option (Nat × Nat) :=
  ASSERT (wadd offset (wmul count sizeofT) ≤ b.size_) <|
    (b.PointerAt offset).map fun p => (p, count)

/-- The `Blob` ownership invariant (spec section 3): the address is null if
and only if the size is zero. -/
def Blob.Inv (b : Blob) : Prop := b.data_ = 0 ↔ b.size_ = 0

theorem ASSERT_pos {α : Type} {cond : Prop} [Decidable cond] (h : cond) (k : Option α) :
    ASSERT cond k = k := by
  unfold ASSERT
  exact if_pos h

theorem ASSERT_neg {α : Type} {cond : Prop} [Decidable cond] (h : ¬cond) (k : Option α) :
    ASSERT cond k = none := by
  unfold ASSERT
  exact if_neg h

theorem ASSERT_of_none {α : Type} (cond : Prop) [Decidable cond] :
    ASSERT cond (none : Option α) = none := by
  unfold ASSERT
  split <;> rfl

theorem wsub_of_le {a b : Nat} (hba : b ≤ a) (ha : a < U64) : wsub a b = a - b := by
  simp only [wsub, U64] at ha ⊢
  omega

theorem wsub_of_gt {e b : Nat} (heb : e < b) (hb : b < U64) :
    wsub e b = e + (U64 - b) := by
  simp only [wsub, U64] at hb ⊢
  omega

theorem toNat_emod_sub {e b : Nat} (heb : e < b) (hb : b < U64) :
    (((e : Int) - (b : Int)) % (U64 : Int)).toNat = e + (U64 - b) := by
  simp only [U64] at hb ⊢
  omega

theorem BlobView.Slice_eq {v : BlobView} {b e : Nat} (hb : b ≤ v.size_) (he : e ≤ v.size_) :
    v.Slice b e = some ⟨v.pointer_ + b, wsub e b⟩ := by
  unfold BlobView.Slice BlobView.DataAt
  rw [ASSERT_pos hb, ASSERT_pos he, ASSERT_pos hb]
  rfl

theorem BlobSpan.Slice_eq_span {s : BlobSpan} {b e : Nat} (hb : b ≤ s.size_) (he : e ≤ s.size_) :
    s.Slice b e = some ⟨s.pointer_ + b, wsub e b⟩ := by
  unfold BlobSpan.Slice BlobSpan.DataAt
  rw [ASSERT_pos hb, ASSERT_pos he, ASSERT_pos hb]
  rfl

/-- C1: for a `BlobView` or `BlobSpan` `v` and offsets `begin ≤ v.Size()`,
`end ≤ v.Size()` with `begin > end`, `Slice(begin, end)` does not fail — no
`begin <= end` check exists — and returns a value whose address is
`v.Data() + begin` and whose size is the wrapped unsigned difference
`(end - begin) mod 2^64`, a bogus size whose window exceeds the view. -/
theorem C1_slice_underflow_wraps
    (v : BlobView) (s : BlobSpan) (vb ve sb se : Nat)
    (hvb : vb ≤ v.Size) (hve : ve ≤ v.Size) (hvgt : ve < vb) (hv64 : v.Size < U64)
    (hsb : sb ≤ s.Size) (hse : se ≤ s.Size) (hsgt : se < sb) (hs64 : s.Size < U64) :
    (v.Slice vb ve = some ⟨v.Data + vb, (((ve : Int) - (vb : Int)) % (U64 : Int)).toNat⟩
      ∧ v.Size < vb + (((ve : Int) - (vb : Int)) % (U64 : Int)).toNat)
    ∧ (s.Slice sb se = some ⟨s.Data + sb, (((se : Int) - (sb : Int)) % (U64 : Int)).toNat⟩
      ∧ s.Size < sb + (((se : Int) - (sb : Int)) % (U64 : Int)).toNat) := by
  have hvblt : vb < U64 := lt_of_le_of_lt hvb hv64
  have hsblt : sb < U64 := lt_of_le_of_lt hsb hs64
  refine ⟨⟨?_, ?_⟩, ?_, ?_⟩
  · rw [BlobView.Slice_eq hvb hve, wsub_of_gt hvgt hvblt, toNat_emod_sub hvgt hvblt]
    rfl
  · rw [toNat_emod_sub hvgt hvblt]
    simp only [BlobView.Size, U64] at hvb hv64 ⊢
    omega
  · rw [BlobSpan.Slice_eq_span hsb hse, wsub_of_gt hsgt hsblt, toNat_emod_sub hsgt hsblt]
    rfl
  · rw [toNat_emod_sub hsgt hsblt]
    simp only [BlobSpan.Size, U64] at hsb hs64 ⊢
    omega

/-- Witness for C1 at the concrete inputs `BlobView(100, 10).Slice(5, 2)` and
`BlobSpan(200, 10).Slice(7, 0)`. -/
theorem C1_witness :
    ((BlobView.ctor 100 10).Slice 5 2
        = some ⟨(BlobView.ctor 100 10).Data + 5, (((2 : Int) - (5 : Int)) % (U64 : Int)).toNat⟩
      ∧ (BlobView.ctor 100 10).Size < 5 + (((2 : Int) - (5 : Int)) % (U64 : Int)).toNat)
    ∧ ((BlobSpan.ctor 200 10).Slice 7 0
        = some ⟨(BlobSpan.ctor 200 10).Data + 7, (((0 : Int) - (7 : Int)) % (U64 : Int)).toNat⟩
      ∧ (BlobSpan.ctor 200 10).Size < 7 + (((0 : Int) - (7 : Int)) % (U64 : Int)).toNat) :=
  C1_slice_underflow_wraps (BlobView.ctor 100 10) (BlobSpan.ctor 200 10) 5 2 7 0
    (by decide) (by decide) (by decide) (by decide)
    (by decide) (by decide) (by decide) (by decide)

/-- C4: for a `BlobView` or `BlobSpan` and `0 ≤ a ≤ b ≤ Size()`,
`Slice(a, b)` succeeds and returns a value of size `b - a` whose address is
`Data() + a`. -/
theorem C4_slice_in_range
    (v : BlobView) (s : BlobSpan) (a b c d : Nat)
    (hab : a ≤ b) (hb : b ≤ v.Size) (hv64 : v.Size < U64)
    (hcd : c ≤ d) (hd : d ≤ s.Size) (hs64 : s.Size < U64) :
    v.Slice a b = some ⟨v.Data + a, b - a⟩
    ∧ s.Slice c d = some ⟨s.Data + c, d - c⟩ := by
  constructor
  · rw [BlobView.Slice_eq (le_trans hab hb) hb, wsub_of_le hab (lt_of_le_of_lt hb hv64)]
    rfl
  · rw [BlobSpan.Slice_eq_span (le_trans hcd hd) hd, wsub_of_le hcd (lt_of_le_of_lt hd hs64)]
    rfl

/-- Witness for C4 at the concrete inputs `BlobView(100, 10).Slice(2, 6)` and
`BlobSpan(200, 10).Slice(0, 10)`. -/
theorem C4_witness :
    (BlobView.ctor 100 10).Slice 2 6 = some ⟨(BlobView.ctor 100 10).Data + 2, 6 - 2⟩
    ∧ (BlobSpan.ctor 200 10).Slice 0 10 = some ⟨(BlobSpan.ctor 200 10).Data + 0, 10 - 0⟩ :=
  C4_slice_in_range (BlobView.ctor 100 10) (BlobSpan.ctor 200 10) 2 6 0 10
    (by decide) (by decide) (by decide) (by decide) (by decide) (by decide)

/-- Counterexample for C2: on a default-constructed (empty) `Blob`, even
`View(0)` and `Span(0)` raise a contract violation, because
`Blob::Data(offset)` also asserts `data_ != nullptr`. -/
theorem C2_counterexample :
    Blob.defaultCtor.View 0 = none ∧ Blob.defaultCtor.Span 0 = none := by
  decide

/-- C2 (amended): for every `Blob` `b` with a non-null address and every
`offset ≤ b.Size()`, `b.View(offset)` and `b.Span(offset)` succeed and return
a view/span with address `b.Data() + offset` and size `b.Size() - offset`;
the asserted conditions are `data_ != nullptr` together with
`offset <= size()`, so on an empty blob even offset `0` is a contract
violation. -/
theorem C2_view_span_success
    (b : Blob) (offset : Nat)
    (hd : b.Data ≠ 0) (ho : offset ≤ b.Size) (h64 : b.Size < U64) :
    b.View offset = some ⟨b.Data + offset, b.Size - offset⟩
    ∧ b.Span offset = some ⟨b.Data + offset, b.Size - offset⟩ := by
  have hw : wsub b.size_ offset = b.size_ - offset := wsub_of_le ho h64
  have hd' : b.data_ ≠ 0 := hd
  have ho' : offset ≤ b.size_ := ho
  constructor
  · unfold Blob.View Blob.DataAt
    rw [ASSERT_pos hd', ASSERT_pos ho', hw]
    rfl
  · unfold Blob.Span Blob.DataAt
    rw [ASSERT_pos hd', ASSERT_pos ho', hw]
    rfl

/-- Witness for C2 at the concrete input `Blob{data_ = 7, size_ = 3}` with
offset `1`. -/
theorem C2_witness :
    (Blob.mk 7 3).View 1 = some ⟨(Blob.mk 7 3).Data + 1, (Blob.mk 7 3).Size - 1⟩
    ∧ (Blob.mk 7 3).Span 1 = some ⟨(Blob.mk 7 3).Data + 1, (Blob.mk 7 3).Size - 1⟩ :=
  C2_view_span_success (Blob.mk 7 3) 1 (by decide) (by decide) (by decide)

/-- Counterexample for C3: a `BlobView` constructed with size `0` from the
non-null address `5` has `Empty() == true` and `Size() == 0`, but its
`Data()` is the given address `5`, not null. -/
theorem C3_counterexample :
    (BlobView.ctor 5 0).Empty = true ∧ (BlobView.ctor 5 0).Size = 0
    ∧ (BlobView.ctor 5 0).Data = 5 ∧ (BlobView.ctor 5 0).Data ≠ 0 := by
  decide

/-- C3 (amended): every default-constructed `Blob`, `BlobView` or `BlobSpan`
has `Empty() == true`, `Size() == 0` and `Data() == null`; a `BlobView` or
`BlobSpan` constructed with size `0` from any address has `Empty() == true`
and `Size() == 0`, but its `Data()` is the address it was given (null only
when constructed from null). -/
theorem C3_empty_state :
    (BlobView.defaultCtor.Empty = true ∧ BlobView.defaultCtor.Size = 0
      ∧ BlobView.defaultCtor.Data = 0)
    ∧ (BlobSpan.defaultCtor.Empty = true ∧ BlobSpan.defaultCtor.Size = 0
      ∧ BlobSpan.defaultCtor.Data = 0)
    ∧ (Blob.defaultCtor.Empty = true ∧ Blob.defaultCtor.Size = 0
      ∧ Blob.defaultCtor.Data = 0)
    ∧ (∀ a, (BlobView.ctor a 0).Empty = true ∧ (BlobView.ctor a 0).Size = 0
      ∧ (BlobView.ctor a 0).Data = a)
    ∧ (∀ a, (BlobSpan.ctor a 0).Empty = true ∧ (BlobSpan.ctor a 0).Size = 0
      ∧ (BlobSpan.ctor a 0).Data = a) := by
  refine ⟨by decide, by decide, by decide, fun a => ⟨?_, rfl, rfl⟩, fun a => ⟨?_, rfl, rfl⟩⟩
  · simp [BlobView.Empty, BlobView.ctor]
  · simp [BlobSpan.Empty, BlobSpan.ctor]

/-- C6: `Blob::Release()` returns exactly the held (address, size) pair,
leaves the blob empty (null address, zero size), and a subsequent `Reset()`
(which the destructor is) frees nothing, so the released allocation is freed
at most once, by the caller. -/
theorem C6_release_transfers_ownership (b : Blob) :
    b.Release = ((b.Data, b.Size), Blob.defaultCtor)
    ∧ (b.Release).2.Reset = (Blob.defaultCtor, ([] : List Nat)) := by
  constructor
  · rfl
  · simp [Blob.Release, Blob.Reset, freeAddr, Blob.defaultCtor]

/-- C8: `Blob::Reset()` always leaves the blob in the empty state; it is
idempotent — a second `Reset` returns the same state and frees nothing — and
on an already-empty blob it is a no-op that frees nothing. -/
theorem C8_reset_idempotent (b : Blob) :
    (b.Reset).1 = Blob.defaultCtor
    ∧ (b.Reset).1.Reset = ((b.Reset).1, ([] : List Nat))
    ∧ (b = Blob.defaultCtor → b.Reset = (b, ([] : List Nat))) := by
  refine ⟨rfl, ?_, ?_⟩
  · simp [Blob.Reset, freeAddr]
  · intro hb
    subst hb
    simp [Blob.Reset, freeAddr, Blob.defaultCtor]

/-- Witness for C8 at the concrete already-empty blob. -/
theorem C8_witness :
    Blob.defaultCtor.Reset = (Blob.defaultCtor, ([] : List Nat)) :=
  (C8_reset_idempotent Blob.defaultCtor).2.2 rfl

/-- C9: converting a `BlobSpan` to a `BlobView` (the implicit converting
constructor) preserves the address and the size, while the opposite
direction — constructing or assigning a `BlobSpan` from a `BlobView` — is
deleted in the source and hence rejected at type-check time. -/
theorem C9_span_view_conversion :
    (∀ s : BlobSpan, (BlobView.ofSpan s).Data = s.Data ∧ (BlobView.ofSpan s).Size = s.Size)
    ∧ declaredConversion ConvDir.spanToView = true
    ∧ declaredConversion ConvDir.viewToSpan = false :=
  ⟨fun _ => ⟨rfl, rfl⟩, rfl, rfl⟩

/-- C5: `Blob::Copy()` on a non-empty blob returns a blob with a fresh
address distinct from the source's, the same size, and byte-identical
content, leaving the source's bytes unchanged; on an empty blob it returns an
empty blob and performs no allocation (the heap is untouched).  `hfit` states
that the source allocation lies below the allocator's next fresh address. -/
theorem C5_copy_semantics (b : Blob) (h : Heap)
    (hwf : Heap.WF h) (hfit : b.data_ + b.size_ ≤ h.next) :
    (b.Empty = false →
      ((b.Copy h).1.Data ≠ b.Data
        ∧ (b.Copy h).1.Size = b.Size
        ∧ (∀ i, i < b.Size →
            (b.Copy h).2.mem ((b.Copy h).1.Data + i) = h.mem (b.Data + i))
        ∧ (∀ i, i < b.Size →
            (b.Copy h).2.mem (b.Data + i) = h.mem (b.Data + i))))
    ∧ (b.Empty = true → b.Copy h = (Blob.defaultCtor, h)) := by
  constructor
  · intro hne
    have hc : b.data_ ≠ 0 ∧ 0 < b.size_ := by
      simp [Blob.Empty] at hne
      omega
    have hC : b.Copy h
        = (⟨h.next, b.size_⟩, ⟨h.next + b.size_, memcpy h.next b.data_ b.size_ h.mem⟩) := by
      unfold Blob.Copy Heap.malloc
      rw [if_pos hc]
    rw [hC]
    unfold Heap.WF at hwf
    refine ⟨?_, rfl, ?_, ?_⟩
    · show h.next ≠ b.data_
      omega
    · intro i hi
      have hi' : i < b.size_ := hi
      show memcpy h.next b.data_ b.size_ h.mem (h.next + i) = h.mem (b.data_ + i)
      unfold memcpy
      rw [if_pos ⟨Nat.le_add_right _ _, by omega⟩]
      congr 1
      omega
    · intro i hi
      have hi' : i < b.size_ := hi
      show memcpy h.next b.data_ b.size_ h.mem (b.data_ + i) = h.mem (b.data_ + i)
      unfold memcpy
      rw [if_neg (by omega)]
  · intro he
    have hc : ¬(b.data_ ≠ 0 ∧ 0 < b.size_) := by
      simp [Blob.Empty] at he
      omega
    unfold Blob.Copy
    rw [if_neg hc]
    rfl

/-- Witness for C5 at the concrete inputs: copying `Blob{data_ = 1, size_ = 2}`
in the heap with next fresh address `10` and memory `fun a => a`, and copying
the default-constructed blob in the same heap. -/
theorem C5_witness :
    ((Blob.mk 1 2).Copy ⟨10, fun a => a⟩).1.Data ≠ (Blob.mk 1 2).Data
    ∧ ((Blob.mk 1 2).Copy ⟨10, fun a => a⟩).1.Size = (Blob.mk 1 2).Size
    ∧ (∀ i, i < (Blob.mk 1 2).Size →
        ((Blob.mk 1 2).Copy ⟨10, fun a => a⟩).2.mem
            (((Blob.mk 1 2).Copy ⟨10, fun a => a⟩).1.Data + i)
          = (⟨10, fun a => a⟩ : Heap).mem ((Blob.mk 1 2).Data + i))
    ∧ (∀ i, i < (Blob.mk 1 2).Size →
        ((Blob.mk 1 2).Copy ⟨10, fun a => a⟩).2.mem ((Blob.mk 1 2).Data + i)
          = (⟨10, fun a => a⟩ : Heap).mem ((Blob.mk 1 2).Data + i))
    ∧ Blob.defaultCtor.Copy ⟨10, fun a => a⟩ = (Blob.defaultCtor, ⟨10, fun a => a⟩) := by
  have H := C5_copy_semantics (Blob.mk 1 2) ⟨10, fun a => a⟩
    (by unfold Heap.WF; decide) (by decide)
  have H0 := C5_copy_semantics Blob.defaultCtor ⟨10, fun a => a⟩
    (by unfold Heap.WF; decide) (by decide)
  obtain ⟨h1, h2, h3, h4⟩ := H.1 (by decide)
  exact ⟨h1, h2, h3, h4, H0.2 (by decide)⟩

theorem Blob.adopt_inv {d n : Nat} {b : Blob} (hb : Blob.adopt d n = some b) :
    Blob.Inv b := by
  unfold Blob.adopt ASSERT at hb
  split at hb
  next hd =>
    split at hb
    next hn =>
      obtain rfl : Blob.mk d n = b := Option.some.inj hb
      show d = 0 ↔ n = 0
      omega
    next => simp at hb
  next => simp at hb

theorem Blob.create_inv {n : Nat} {h : Heap} {r : Blob × Heap}
    (hwf : Heap.WF h) (hc : Blob.create n h = some r) : Blob.Inv r.1 := by
  unfold Blob.create ASSERT Heap.malloc at hc
  unfold Heap.WF at hwf
  split at hc
  next hn =>
    obtain rfl := Option.some.inj hc
    show h.next = 0 ↔ n = 0
    omega
  next => simp at hc

theorem Blob.copy_inv {b : Blob} {h : Heap} (hwf : Heap.WF h) :
    Blob.Inv ((b.Copy h).1) := by
  unfold Blob.Copy Heap.malloc
  unfold Heap.WF at hwf
  split
  next hc =>
    show h.next = 0 ↔ b.size_ = 0
    omega
  next => exact Iff.rfl

/-- C7: the ownership invariant — address null iff size zero — holds for a
default-constructed `Blob` and is preserved by every operation: the
allocating constructor, the adopting constructors, move construction, move
assignment, `Reset`, `Release`, `Copy` and `Clear` (for both the source and
the produced value wherever both exist). -/
theorem C7_invariant_all_ops :
    Blob.Inv Blob.defaultCtor
    ∧ (∀ n h r, Heap.WF h → Blob.create n h = some r → Blob.Inv r.1)
    ∧ (∀ d n b, Blob.adopt d n = some b → Blob.Inv b)
    ∧ (∀ st buf m b, Blob.adoptTyped st buf m = some b → Blob.Inv b)
    ∧ (∀ b, Blob.Inv b → Blob.Inv (Blob.moveCtor b).1 ∧ Blob.Inv (Blob.moveCtor b).2)
    ∧ (∀ a b, Blob.Inv a → Blob.Inv b →
        Blob.Inv (Blob.moveAssign a b).1 ∧ Blob.Inv (Blob.moveAssign a b).2.1)
    ∧ (∀ b : Blob, Blob.Inv (b.Reset).1)
    ∧ (∀ b : Blob, Blob.Inv (b.Release).2)
    ∧ (∀ (b : Blob) (h : Heap), Heap.WF h → Blob.Inv b → Blob.Inv (b.Copy h).1)
    ∧ (∀ (b : Blob) (h : Heap), Blob.Inv b → Blob.Inv (b.Clear h).1) := by
  refine ⟨Iff.rfl, ?_, ?_, ?_, ?_, ?_, ?_, ?_, ?_, ?_⟩
  · exact fun n h r hwf hc => Blob.create_inv hwf hc
  · exact fun d n b hb => Blob.adopt_inv hb
  · intro st buf m b hb
    unfold Blob.adoptTyped at hb
    exact Blob.adopt_inv hb
  · exact fun b hb => ⟨hb, Iff.rfl⟩
  · exact fun a b _ hb => ⟨hb, Iff.rfl⟩
  · exact fun b => Iff.rfl
  · exact fun b => Iff.rfl
  · exact fun b h hwf _ => Blob.copy_inv hwf
  · intro b h hb
    unfold Blob.Clear
    split
    next => exact hb
    next => exact hb

/-- Witness for C7 at the concrete input `Blob::Blob((void*)5, 3)` (adopting
constructor). -/
theorem C7_witness :
    Blob.adopt 5 3 = some (Blob.mk 5 3) ∧ Blob.Inv (Blob.mk 5 3) :=
  ⟨by decide, C7_invariant_all_ops.2.2.1 5 3 (Blob.mk 5 3) (by decide)⟩

theorem BlobView.SubViewSized_none {v : BlobView} {o c : Nat} (hgt : v.size_ < o) :
    v.SubViewSized o c = none := by
  unfold BlobView.SubViewSized BlobView.DataAt
  rw [ASSERT_neg (show ¬(o ≤ v.size_) by omega) (some (v.pointer_ + o))]
  exact ASSERT_of_none _

theorem BlobSpan.SubSpanSized_none {s : BlobSpan} {o c : Nat} (hgt : s.size_ < o) :
    s.SubSpanSized o c = none := by
  unfold BlobSpan.SubSpanSized BlobSpan.DataAt
  rw [ASSERT_neg (show ¬(o ≤ s.size_) by omega) (some (s.pointer_ + o))]
  exact ASSERT_of_none _

theorem Blob.SpanSized_none {b : Blob} {o c : Nat} (hgt : b.size_ < o) :
    b.SpanSized o c = none := by
  unfold Blob.SpanSized Blob.DataAt
  rw [ASSERT_neg (show ¬(o ≤ b.size_) by omega) (some (b.data_ + o)),
    ASSERT_of_none (b.data_ ≠ 0)]
  exact ASSERT_of_none _

theorem Blob.ViewSized_none {b : Blob} {o c : Nat} (hgt : b.size_ < o) :
    b.ViewSized o c = none := by
  unfold Blob.ViewSized Blob.DataAt
  rw [ASSERT_neg (show ¬(o ≤ b.size_) by omega) (some (b.data_ + o)),
    ASSERT_of_none (b.data_ ≠ 0)]
  exact ASSERT_of_none _

theorem Blob.ArrayView_none {b : Blob} {st o c : Nat} (hgt : b.size_ < o) :
    b.ArrayView st o c = none := by
  unfold Blob.ArrayView Blob.PointerAt
  rw [ASSERT_neg (show ¬(o ≤ b.size_) by omega) (b.DataAt o)]
  exact ASSERT_of_none _

theorem Blob.ArraySpan_none {b : Blob} {st o c : Nat} (hgt : b.size_ < o) :
    b.ArraySpan st o c = none := by
  unfold Blob.ArraySpan Blob.PointerAt
  rw [ASSERT_neg (show ¬(o ≤ b.size_) by omega) (b.DataAt o)]
  exact ASSERT_of_none _

/-- Counterexample for C10: at the concrete values `BlobView(100, 10)`,
`BlobSpan(200, 10)` and `Blob{data_ = 300, size_ = 10}`, no offset greater
than the size ever yields a window from any of the two-argument bounds-checked
operations — whatever second argument is supplied, the subsequent
`Data(offset)`/`Pointer(offset)` assertion `offset <= size` raises a contract
violation — so the claimed out-of-range window for `offset > size` is never
returned. -/
theorem C10_counterexample :
    ¬ ∃ offset other,
      10 < offset
      ∧ (((BlobView.ctor 100 10).SubViewSized offset other).isSome
        ∨ ((BlobSpan.ctor 200 10).SubSpanSized offset other).isSome
        ∨ ((Blob.mk 300 10).SpanSized offset other).isSome
        ∨ ((Blob.mk 300 10).ViewSized offset other).isSome
        ∨ ((Blob.mk 300 10).ArrayView 4 offset other).isSome
        ∨ ((Blob.mk 300 10).ArraySpan 4 offset other).isSome) := by
  rintro ⟨o, c, ho, hcase⟩
  rcases hcase with hc | hc | hc | hc | hc | hc
  · rw [BlobView.SubViewSized_none ho] at hc
    simp at hc
  · rw [BlobSpan.SubSpanSized_none ho] at hc
    simp at hc
  · rw [Blob.SpanSized_none ho] at hc
    simp at hc
  · rw [Blob.ViewSized_none ho] at hc
    simp at hc
  · rw [Blob.ArrayView_none ho] at hc
    simp at hc
  · rw [Blob.ArraySpan_none ho] at hc
    simp at hc

/-- C10 (amended): every two-argument bounds check `offset + bytes <= size`
(`SubView`/`SubSpan` with explicit size, `Blob::View`/`Blob::Span` with
explicit size, `ArrayView`/`ArraySpan` with `offset + count*sizeof(T)`)
computes its left-hand side modulo `2^64`.  For `offset > size` the
subsequent `Data(offset)`/`Pointer(offset)` assertion `offset <= size` always
raises a contract violation, but for any `offset <= size` there exists a
`bytes` (or `count`) value whose wrapped sum passes the check, and an
out-of-range window — one extending past the end of the buffer — is returned
instead of a contract violation. -/
theorem C10_wrapped_check_passes (v : BlobView) (s : BlobSpan) (b : Blob) (offset : Nat)
    (hv : offset ≤ v.Size) (hv64 : v.Size < U64)
    (hs : offset ≤ s.Size) (hs64 : s.Size < U64)
    (hb : offset ≤ b.Size) (hb64 : b.Size < U64) (hbd : b.Data ≠ 0) :
    (∃ bytes, 0 < bytes ∧ wadd offset bytes ≤ v.Size ∧ v.Size < offset + bytes
      ∧ v.SubViewSized offset bytes = some ⟨v.Data + offset, bytes⟩)
    ∧ (∃ bytes, 0 < bytes ∧ wadd offset bytes ≤ s.Size ∧ s.Size < offset + bytes
      ∧ s.SubSpanSized offset bytes = some ⟨s.Data + offset, bytes⟩)
    ∧ (∃ sz, 0 < sz ∧ wadd offset sz ≤ b.Size ∧ b.Size < offset + sz
      ∧ b.SpanSized offset sz = some ⟨b.Data + offset, sz⟩
      ∧ b.ViewSized offset sz = some ⟨b.Data + offset, sz⟩)
    ∧ (∃ count, wadd offset (wmul count 4) ≤ b.Size ∧ b.Size < offset + count * 4
      ∧ b.ArrayView 4 offset count = some (b.Data + offset, count)
      ∧ b.ArraySpan 4 offset count = some (b.Data + offset, count)) := by
  have hvS : offset ≤ v.size_ := hv
  have hsS : offset ≤ s.size_ := hs
  have hbS : offset ≤ b.size_ := hb
  have hbd' : b.data_ ≠ 0 := hbd
  have hv64' : v.size_ < U64 := hv64
  have hs64' : s.size_ < U64 := hs64
  have hb64' : b.size_ < U64 := hb64
  have ho64 : offset < U64 := lt_of_le_of_lt hv hv64
  have hw0 : wadd offset (U64 - offset) = 0 := by
    simp only [wadd, U64] at ho64 ⊢
    omega
  have hm4 : wmul 4611686018427387904 4 = 0 := by decide
  refine ⟨⟨U64 - offset, ?_, ?_, ?_, ?_⟩, ⟨U64 - offset, ?_, ?_, ?_, ?_⟩,
    ⟨U64 - offset, ?_, ?_, ?_, ?_, ?_⟩, ⟨4611686018427387904, ?_, ?_, ?_, ?_⟩⟩
  · simp only [U64] at ho64 ⊢
    omega
  · rw [hw0]
    exact Nat.zero_le _
  · show v.size_ < offset + (U64 - offset)
    simp only [U64] at ho64 hv64' ⊢
    omega
  · unfold BlobView.SubViewSized BlobView.DataAt
    rw [hw0, ASSERT_pos (Nat.zero_le _), ASSERT_pos hvS]
    rfl
  · simp only [U64] at ho64 ⊢
    omega
  · rw [hw0]
    exact Nat.zero_le _
  · show s.size_ < offset + (U64 - offset)
    simp only [U64] at ho64 hs64' ⊢
    omega
  · unfold BlobSpan.SubSpanSized BlobSpan.DataAt
    rw [hw0, ASSERT_pos (Nat.zero_le _), ASSERT_pos hsS]
    rfl
  · simp only [U64] at ho64 ⊢
    omega
  · rw [hw0]
    exact Nat.zero_le _
  · show b.size_ < offset + (U64 - offset)
    simp only [U64] at ho64 hb64' ⊢
    omega
  · unfold Blob.SpanSized Blob.DataAt
    rw [hw0, ASSERT_pos (Nat.zero_le _), ASSERT_pos hbd', ASSERT_pos hbS]
    rfl
  · unfold Blob.ViewSized Blob.DataAt
    rw [hw0, ASSERT_pos (Nat.zero_le _), ASSERT_pos hbd', ASSERT_pos hbS]
    rfl
  · rw [hm4]
    show wadd offset 0 ≤ b.size_
    simp only [wadd, U64] at ho64 ⊢
    omega
  · show b.size_ < offset + 4611686018427387904 * 4
    simp only [U64] at hb64'
    omega
  · unfold Blob.ArrayView Blob.PointerAt Blob.DataAt
    rw [hm4]
    have hwa : wadd offset 0 ≤ b.size_ := by
      simp only [wadd, U64] at ho64 ⊢
      omega
    rw [ASSERT_pos hwa, ASSERT_pos hbS, ASSERT_pos hbd', ASSERT_pos hbS]
    rfl
  · unfold Blob.ArraySpan Blob.PointerAt Blob.DataAt
    rw [hm4]
    have hwa : wadd offset 0 ≤ b.size_ := by
      simp only [wadd, U64] at ho64 ⊢
      omega
    rw [ASSERT_pos hwa, ASSERT_pos hbS, ASSERT_pos hbd', ASSERT_pos hbS]
    rfl

/-- Witness for C10 (amended) at the concrete inputs `BlobView(100, 10)`,
`BlobSpan(200, 10)`, `Blob{data_ = 300, size_ = 10}` with offset `3`. -/
theorem C10_witness :
    (∃ bytes, 0 < bytes ∧ wadd 3 bytes ≤ (BlobView.ctor 100 10).Size
      ∧ (BlobView.ctor 100 10).Size < 3 + bytes
      ∧ (BlobView.ctor 100 10).SubViewSized 3 bytes
          = some ⟨(BlobView.ctor 100 10).Data + 3, bytes⟩)
    ∧ (∃ bytes, 0 < bytes ∧ wadd 3 bytes ≤ (BlobSpan.ctor 200 10).Size
      ∧ (BlobSpan.ctor 200 10).Size < 3 + bytes
      ∧ (BlobSpan.ctor 200 10).SubSpanSized 3 bytes
          = some ⟨(BlobSpan.ctor 200 10).Data + 3, bytes⟩)
    ∧ (∃ sz, 0 < sz ∧ wadd 3 sz ≤ (Blob.mk 300 10).Size
      ∧ (Blob.mk 300 10).Size < 3 + sz
      ∧ (Blob.mk 300 10).SpanSized 3 sz = some ⟨(Blob.mk 300 10).Data + 3, sz⟩
      ∧ (Blob.mk 300 10).ViewSized 3 sz = some ⟨(Blob.mk 300 10).Data + 3, sz⟩)
    ∧ (∃ count, wadd 3 (wmul count 4) ≤ (Blob.mk 300 10).Size
      ∧ (Blob.mk 300 10).Size < 3 + count * 4
      ∧ (Blob.mk 300 10).ArrayView 4 3 count = some ((Blob.mk 300 10).Data + 3, count)
      ∧ (Blob.mk 300 10).ArraySpan 4 3 count = some ((Blob.mk 300 10).Data + 3, count)) :=
  C10_wrapped_check_passes (BlobView.ctor 100 10) (BlobSpan.ctor 200 10) (Blob.mk 300 10) 3
    (by decide) (by decide) (by decide) (by decide) (by decide) (by decide) (by decide)

/-- Witness for C3 (amended) at the concrete zero-size view constructed from
address `42`. -/
theorem C3_witness :
    (BlobView.ctor 42 0).Empty = true ∧ (BlobView.ctor 42 0).Size = 0
    ∧ (BlobView.ctor 42 0).Data = 42 :=
  C3_empty_state.2.2.2.1 42

/-- Witness for C6 at the concrete input `Blob{data_ = 9, size_ = 4}`. -/
theorem C6_witness :
    (Blob.mk 9 4).Release = (((Blob.mk 9 4).Data, (Blob.mk 9 4).Size), Blob.defaultCtor)
    ∧ ((Blob.mk 9 4).Release).2.Reset = (Blob.defaultCtor, ([] : List Nat)) :=
  C6_release_transfers_ownership (Blob.mk 9 4)

/-- Witness for C9 at the concrete input `BlobSpan(7, 5)`. -/
theorem C9_witness :
    (BlobView.ofSpan (BlobSpan.ctor 7 5)).Data = (BlobSpan.ctor 7 5).Data
    ∧ (BlobView.ofSpan (BlobSpan.ctor 7 5)).Size = (BlobSpan.ctor 7 5).Size :=
  C9_span_view_conversion.1 (BlobSpan.ctor 7 5)
